import Mathlib

/-!
Verification development for `scripts/generate_day.py`, a one-day transit
ridership estimate generator.  The script is embedded shallowly: Python
floats become exact rationals (`ℚ`), Python's `round` (banker's rounding,
half to even) is modelled by `roundHalfEven` / `pyRound`, dictionaries with
optional keys become structures with `Option` fields, and exceptions
(`ZeroDivisionError`, `KeyError`, `SystemExit`) become `Except String`
results that propagate exactly as Python exceptions do.
-/

/-- Python `round(q)` on an exact value: round half to even (banker's
rounding), as used by Python 3 `round`. -/
def roundHalfEven (q : ℚ) : ℤ :=
  if q - ⌊q⌋ < 1/2 then ⌊q⌋
  else if q - ⌊q⌋ > 1/2 then ⌊q⌋ + 1
  else if ⌊q⌋ % 2 = 0 then ⌊q⌋ else ⌊q⌋ + 1

/-- Python `round(q, n)`: round to `n` decimal digits, half to even. -/
def pyRound (n : ℕ) (q : ℚ) : ℚ :=
  (roundHalfEven (q * 10 ^ n) : ℚ) / 10 ^ n

/-- A peak window, after parsing its `"HH:MM"` endpoints
(`datetime.strptime(w["start"], "%H:%M").time()`): a clock time compares
like its total minutes since midnight, so each endpoint is the minutes
value. -/
structure Window where
  startMin : ℕ
  endMin : ℕ
  deriving DecidableEq

/-- A point of the generated day grid.  `ts.time()` only looks at the
time-of-day (`tod`, minutes since midnight; the grid has second = 0),
while `date` is the calendar date component, unused by classification. -/
structure Timestamp where
  date : ℕ
  tod : ℕ
  deriving DecidableEq

/-- A line record from `lines.json`, with the optional fields the script
reads.  `peak_windows` models `line_def.get("peak_windows") or []`
(absent collapses to `[]`), and the two headway patterns model
`(line_def.get("headway_patterns") or {}).get(... ) or []` the same way.
Numeric fields that `.get`/`[...]` may miss are `Option ℚ`. -/
structure LineDef where
  line_name : String
  peak_windows : List Window
  peak_min : List ℚ
  offpeak_min : List ℚ
  train_total_capacity : Option ℚ
  cars_per_train : Option ℚ
  carriage_capacity : Option ℚ
  deriving DecidableEq

/-- A station record from `stations.json`, after the config-driven field
mapping: code, name, three optional capacity figures, and the list of
line names attached to the station
(`[l.get("line_name") for l in (st.get(F["lines_field"]) or [])]`). -/
structure Station where
  code : String
  name : String
  occ_cap : Option ℚ
  plat_cap : Option ℚ
  peak_cap : Option ℚ
  lines : List String
  deriving DecidableEq

/-- One output row (`row = { ... }` in the loop body).  The three
percentage columns are present only when the corresponding capacity was
truthy, hence `Option`. -/
structure Row where
  timestamp : Timestamp
  station_code : String
  station_name : String
  line_name : String
  is_peak : Bool
  headway_min : ℚ
  trains_per_hour : ℚ
  train_capacity : ℚ
  passengers_per_min : ℚ
  estimated_present : ℤ
  crowding_station_pct : Option ℚ
  crowding_platform_pct : Option ℚ
  flow_vs_peak_pct : Option ℚ
  deriving DecidableEq

/-- `is_peak(ts, peak_windows)`: true iff the time-of-day of `ts` lies in
some window, both bounds inclusive (`if s <= tod <= e`); an empty list
gives `False` (the `if not peak_windows` guard and the empty loop agree). -/
def is_peak (ts : Timestamp) (peak_windows : List Window) : Bool :=
  peak_windows.any fun w =>
    decide (w.startMin ≤ ts.tod) && decide (ts.tod ≤ w.endMin)

/-- `cyclical_pick(seq, i) = seq[i % len(seq)]`.  On an empty list Python
raises `ZeroDivisionError` (`i % 0`), modelled by `none`. -/
def cyclical_pick {α : Type} (seq : List α) (i : ℕ) : Option α :=
  seq[i % seq.length]?

/-- `train_capacity(line_def)`: the explicit `train_total_capacity` if
present and truthy (a numeric value is truthy iff nonzero), otherwise
`cars_per_train * carriage_capacity`; `none` models the `KeyError` raised
when a needed fallback field is missing. -/
def train_capacity (line_def : LineDef) : Option ℚ :=
  match line_def.train_total_capacity with
  | some c =>
      if c ≠ 0 then some c
      else match line_def.cars_per_train, line_def.carriage_capacity with
            | some a, some b => some (a * b)
            | _, _ => none
  | none =>
      match line_def.cars_per_train, line_def.carriage_capacity with
      | some a, some b => some (a * b)
      | _, _ => none

/-- The body of the per-timestamp loop (lines 93–123 of the script): peak
classification, cyclical headway pick, the three flow formulas, and the
conditional percentage columns.  Division by a zero headway raises
`ZeroDivisionError` in Python, hence the `Except`. -/
def computeRow (st : Station) (ln : String) (cap_train : ℚ) (dwell_min : ℚ)
    (peak_windows : List Window) (hw_peak hw_off : List ℚ)
    (i : ℕ) (ts : Timestamp) : Except String Row :=
  let peak := is_peak ts peak_windows
  match cyclical_pick (if peak then hw_peak else hw_off) i with
  | none => Except.error "ZeroDivisionError: integer modulo by zero"
  | some hw_min =>
    if hw_min = 0 then Except.error "ZeroDivisionError: float division by zero"
    else
      let tph := 60 / hw_min
      let ppm := tph * cap_train / 60
      let est_present := ppm * dwell_min
      Except.ok
        { timestamp := ts
          station_code := st.code
          station_name := st.name
          line_name := ln
          is_peak := peak
          headway_min := hw_min
          trains_per_hour := pyRound 3 tph
          train_capacity := cap_train
          passengers_per_min := pyRound 3 ppm
          estimated_present := roundHalfEven est_present
          crowding_station_pct :=
            match st.occ_cap with
            | some c => if c = 0 then none else some (pyRound 2 (100 * est_present / c))
            | none => none
          crowding_platform_pct :=
            match st.plat_cap with
            | some c =>
                if c = 0 then none
                else some (pyRound 2 (100 * (est_present * (2/5)) / c))
            | none => none
          flow_vs_peak_pct :=
            match st.peak_cap with
            | some c => if c = 0 then none else some (pyRound 2 (100 * (ppm * 60) / c))
            | none => none }

/-- Warning printed when a station references a line name absent from the
line map (line 80 of the script; the original message is Arabic, only its
occurrence matters here). -/
def warnMissingLine (ln : String) : String :=
  "[WARN] line " ++ ln ++ " missing from lines.json, skipped"

/-- Warning printed when a line's peak or off-peak headway pattern is
empty or absent (line 87 of the script). -/
def warnBadHeadway (ln : String) : String :=
  "[WARN] incomplete headway pattern for line " ++ ln ++ ", skipped"

/-- The `KeyError` raised by `train_capacity` when no capacity is
derivable; it propagates out of `main` uncaught. -/
def keyErrorCapacity : String := "KeyError: train capacity fields missing"

/-- The `SystemExit` message raised when `all_chunks` is empty
(line 129 of the script). -/
def noDataMsg : String := "no data generated"

/-- The `KeyError` raised by the summary
`day_df.groupby(["station_code","line_name"])` (line 155) when `day_df`
has no columns: `pd.DataFrame([])` has no columns and `pd.concat` of
such frames keeps none, so when every surviving chunk's row list is
empty the groupby key is not a column.  Uncaught, non-zero exit. -/
def keyErrorGroupby : String := "KeyError: station_code"

/-- The inner `for i, ts in enumerate(times)` loop for one station-line
pair: fold `computeRow` over the enumerated grid, propagating the first
exception. -/
def rowsForTimes (st : Station) (ln : String) (cap_train dwell_min : ℚ)
    (peak_windows : List Window) (hw_peak hw_off : List ℚ) :
    List (ℕ × Timestamp) → Except String (List Row)
  | [] => Except.ok []
  | (i, ts) :: rest =>
    match computeRow st ln cap_train dwell_min peak_windows hw_peak hw_off i ts with
    | Except.error e => Except.error e
    | Except.ok r =>
      match rowsForTimes st ln cap_train dwell_min peak_windows hw_peak hw_off rest with
      | Except.error e => Except.error e
      | Except.ok rs => Except.ok (r :: rs)

/-- The body of `for ln in lines_in_station` (lines 77–126): either the
pair is skipped with a warning and contributes no chunk (`none`), or one
chunk of rows is produced; `train_capacity`'s `KeyError` and the loop's
`ZeroDivisionError` propagate as errors. -/
def processLinePair (lmap : String → Option LineDef) (dwell_min : ℚ)
    (times : List Timestamp) (st : Station) (ln : String) :
    Except String (Option (List Row) × List String) :=
  match lmap ln with
  | none => Except.ok (none, [warnMissingLine ln])
  | some line_def =>
    if line_def.peak_min = [] ∨ line_def.offpeak_min = [] then
      Except.ok (none, [warnBadHeadway ln])
    else
      match train_capacity line_def with
      | none => Except.error keyErrorCapacity
      | some cap_train =>
        match rowsForTimes st ln cap_train dwell_min line_def.peak_windows
            line_def.peak_min line_def.offpeak_min times.enum with
        | Except.error e => Except.error e
        | Except.ok rs => Except.ok (some rs, [])

/-- Iterate `processLinePair` over a station's line names, collecting the
produced chunks (one `List Row` per surviving pair, as `all_chunks`
collects one DataFrame per pair) and the warnings, in loop order. -/
def processLinesList (lmap : String → Option LineDef) (dwell_min : ℚ)
    (times : List Timestamp) (st : Station) :
    List String → Except String (List (List Row) × List String)
  | [] => Except.ok ([], [])
  | ln :: rest =>
    match processLinePair lmap dwell_min times st ln with
    | Except.error e => Except.error e
    | Except.ok (c, w) =>
      match processLinesList lmap dwell_min times st rest with
      | Except.error e => Except.error e
      | Except.ok (cs, ws) => Except.ok (c.toList ++ cs, w ++ ws)

/-- One iteration of `for st in stations`: the `if not lines_in_station:
continue` guard (line 73) followed by the inner loop over line names. -/
def processStation (lmap : String → Option LineDef) (dwell_min : ℚ)
    (times : List Timestamp) (st : Station) :
    Except String (List (List Row) × List String) :=
  if st.lines = [] then Except.ok ([], [])
  else processLinesList lmap dwell_min times st st.lines

/-- The outer loop over stations, concatenating chunks and warnings in
iteration order. -/
def processStations (lmap : String → Option LineDef) (dwell_min : ℚ)
    (times : List Timestamp) : List Station → Except String (List (List Row) × List String)
  | [] => Except.ok ([], [])
  | st :: rest =>
    match processStation lmap dwell_min times st with
    | Except.error e => Except.error e
    | Except.ok (cs, ws) =>
      match processStations lmap dwell_min times rest with
      | Except.error e => Except.error e
      | Except.ok (cs2, ws2) => Except.ok (cs ++ cs2, ws ++ ws2)

/-- `lines = {x["line_name"]: x for x in lines_list}`: a dict
comprehension where a duplicate name overwrites the earlier entry, so a
lookup returns the last record with that name. -/
def buildLines (lines_list : List LineDef) (n : String) : Option LineDef :=
  (lines_list.filter fun d => d.line_name == n).getLast?

/-- The whole generation phase of `main` up to and including the
`all_chunks` collection. -/
def generateChunks (stations : List Station) (lines_list : List LineDef)
    (dwell_min : ℚ) (times : List Timestamp) :
    Except String (List (List Row) × List String) :=
  processStations (buildLines lines_list) dwell_min times stations

/-- The run outcome after the loops.  `if not all_chunks: raise
SystemExit(...)` (fatal, non-zero exit) fires on zero chunks.  Otherwise
`day_df = pd.concat(all_chunks)`, the file is written and the row count
printed; then the summary `groupby` (line 155) raises an uncaught
`KeyError` when `day_df` has no columns, which happens exactly when
every chunk's row list is empty (`chunks.flatten = []`: each chunk is
`pd.DataFrame` of its rows, columnless when the list is empty, and
`concat` keeps the union of columns).  Only with at least one row does
the run reach the end of the summary and exit zero, modelled as `ok`
carrying the rows and warnings. -/
def runEstimator (stations : List Station) (lines_list : List LineDef)
    (dwell_min : ℚ) (times : List Timestamp) :
    Except String (List Row × List String) :=
  match generateChunks stations lines_list dwell_min times with
  | Except.error e => Except.error e
  | Except.ok (chunks, warns) =>
    if chunks = [] then Except.error noDataMsg
    else if chunks.flatten = [] then Except.error keyErrorGroupby
    else Except.ok (chunks.flatten, warns)

/-- A fixed grid timestamp (06:00 on the generated day) used for concrete
instantiations. -/
def ts0 : Timestamp := ⟨0, 360⟩

/-- A concrete station with all three capacity figures, serving one line. -/
def st0 : Station := ⟨"S1", "Station One", some 1000, some 500, some 6000, ["L1"]⟩

/-- The row `computeRow` produces for `st0` at `ts0` with capacity 1000,
dwell 12 and constant headway 10 (the end-to-end example of the spec). -/
def row0 : Row :=
  ⟨ts0, "S1", "Station One", "L1", false, 10, 6, 1000, 100, 1200,
    some 120, some 96, some 100⟩

/-- A station with no capacity figures, used for the C2 counterexample. -/
def st2 : Station := ⟨"S2", "Station Two", none, none, none, ["L2"]⟩

/-- The row produced for `st2` with train capacity 1, dwell 12 and
constant headway 24: the unrounded per-minute flow is `1/24`, emitted as
`0.042`; the occupancy estimate is `1/2`, emitted as `0` (half to even),
while `round(0.042 * 12) = round(0.504) = 1`. -/
def row2 : Row :=
  ⟨ts0, "S2", "Station Two", "L2", false, 24, 5/2, 1, 21/500, 0,
    none, none, none⟩

/-- A line with no explicit total capacity, 5 cars per train and carriage
capacity 200 (the worked example of the spec). -/
def ld6 : LineDef := ⟨"L6", [], [10], [12], none, some 5, some 200⟩

/-- One station referencing line `L9`, whose off-peak pattern contains a
zero headway; used to exhibit the unguarded division. -/
def stations9 : List Station := [⟨"S9", "Station Nine", none, none, none, ["L9"]⟩]

/-- A line definition whose off-peak headway list contains 0 minutes. -/
def ldefs9 : List LineDef := [⟨"L9", [], [10], [0], some 1000, none, none⟩]

/-- One station referencing one fully valid line; with an empty time grid
it still contributes an (empty) chunk to `all_chunks`. -/
def stations3 : List Station := [⟨"S3", "Station Three", none, none, none, ["L3"]⟩]

/-- A fully valid line definition for the C3 counterexample. -/
def ldefs3 : List LineDef := [⟨"L3", [], [10], [12], some 1000, none, none⟩]

lemma computeRow_st0 :
    computeRow st0 "L1" 1000 12 [] [10] [10] 0 ts0 = Except.ok row0 := by
  simp [computeRow, is_peak, cyclical_pick, st0, ts0, row0]
  norm_num [pyRound, roundHalfEven]

/-- C4: `is_peak` is true iff the timestamp's time-of-day lies inside at
least one window, with both boundaries inclusive; an empty window list
yields false (the iff's right side is vacuous), and only the time-of-day
is compared — the date component is irrelevant. -/
theorem c4_is_peak_spec :
    ∀ (ts : Timestamp) (ws : List Window),
      ((is_peak ts ws = true) ↔ ∃ w ∈ ws, w.startMin ≤ ts.tod ∧ ts.tod ≤ w.endMin) ∧
      (∀ d : ℕ, is_peak ⟨d, ts.tod⟩ ws = is_peak ts ws) := by
  intro ts ws
  refine ⟨?_, fun d => rfl⟩
  simp [is_peak]

/-- C5: on a non-empty list, `cyclical_pick seq i` is the element at
position `i % seq.length`, and the selection is periodic with period
`seq.length`. -/
theorem c5_cyclical_pick_mod :
    ∀ {α : Type} (seq : List α) (i : ℕ) (h : seq ≠ []),
      cyclical_pick seq i =
        some (seq.get ⟨i % seq.length, Nat.mod_lt i (List.length_pos.mpr h)⟩) ∧
      cyclical_pick seq (i + seq.length) = cyclical_pick seq i := by
  intro α seq i h
  constructor
  · simp [cyclical_pick, List.getElem?_eq_getElem (Nat.mod_lt i (List.length_pos.mpr h))]
  · simp [cyclical_pick, Nat.add_mod_right]

theorem c5_witness :
    cyclical_pick [(3 : ℚ), 5] 3 = some 5 ∧
      cyclical_pick [(3 : ℚ), 5] (3 + 2) = cyclical_pick [(3 : ℚ), 5] 3 := by
  have h := c5_cyclical_pick_mod [(3 : ℚ), 5] 3 (by simp)
  exact ⟨by simpa using h.1, by simpa using h.2⟩

/-- C10: a peak window whose start clock-time is strictly later than its
end clock-time can never match: membership is tested as
`start ≤ tod ≤ end`, so any list of such windows classifies every
timestamp as off-peak. -/
theorem c10_wrapping_window_never_matches :
    ∀ (ws : List Window), (∀ w ∈ ws, w.endMin < w.startMin) →
      ∀ ts : Timestamp, is_peak ts ws = false := by
  intro ws h ts
  simp only [is_peak, List.any_eq_false, Bool.and_eq_true, decide_eq_true_eq, not_and]
  intro w hw hs
  have := h w hw
  omega

theorem c10_witness : is_peak ⟨0, 1380⟩ [⟨1320, 60⟩] = false :=
  c10_wrapping_window_never_matches [⟨1320, 60⟩] (by simp) ⟨0, 1380⟩

/-- C6: `train_capacity` returns the explicit `train_total_capacity` when
present and truthy (nonzero); otherwise it returns
`cars_per_train * carriage_capacity` when both are present, and fails
(modelled `none`, a propagated `KeyError`) when either fallback field is
missing. -/
theorem c6_train_capacity_spec :
    ∀ ld : LineDef,
      (∀ c, ld.train_total_capacity = some c → c ≠ 0 → train_capacity ld = some c) ∧
      ((ld.train_total_capacity = none ∨ ld.train_total_capacity = some 0) →
        (∀ a b, ld.cars_per_train = some a → ld.carriage_capacity = some b →
          train_capacity ld = some (a * b)) ∧
        ((ld.cars_per_train = none ∨ ld.carriage_capacity = none) →
          train_capacity ld = none)) := by
  intro ld
  constructor
  · intro c hc hne
    simp [train_capacity, hc, hne]
  · intro htot
    constructor
    · intro a b ha hb
      rcases htot with h | h <;> simp [train_capacity, h, ha, hb]
    · intro hfall
      rcases htot with h | h <;> rcases hfall with h2 | h2 <;>
        simp [train_capacity, h, h2]

theorem c6_witness : train_capacity ld6 = some 1000 := by
  have h := ((c6_train_capacity_spec ld6).2 (Or.inl rfl)).1 5 200 rfl rfl
  rw [h]; norm_num

/-- C1: every produced row satisfies
`trains_per_hour = 60 / headway_min` and
`passengers_per_min = trains_per_hour * train_capacity / 60`, both
rounded to 3 decimal places in the emitted row. -/
theorem c1_row_formulas :
    ∀ (st : Station) (ln : String) (cap_train dwell_min : ℚ)
      (pw : List Window) (hp ho : List ℚ) (i : ℕ) (ts : Timestamp) (row : Row),
      computeRow st ln cap_train dwell_min pw hp ho i ts = Except.ok row →
      row.trains_per_hour = pyRound 3 (60 / row.headway_min) ∧
      row.passengers_per_min =
        pyRound 3 (60 / row.headway_min * row.train_capacity / 60) := by
  intro st ln cap_train dwell_min pw hp ho i ts row h
  unfold computeRow at h
  dsimp only at h
  cases hp1 : cyclical_pick (if is_peak ts pw then hp else ho) i with
  | none => rw [hp1] at h; simp at h
  | some hw =>
    rw [hp1] at h
    by_cases h0 : hw = 0
    · simp [h0] at h
    · simp only [h0, if_false, ite_false, Except.ok.injEq] at h
      subst h
      exact ⟨rfl, rfl⟩

theorem c1_witness :
    computeRow st0 "L1" 1000 12 [] [10] [10] 0 ts0 = Except.ok row0 ∧
      row0.trains_per_hour = pyRound 3 (60 / row0.headway_min) ∧
      row0.passengers_per_min =
        pyRound 3 (60 / row0.headway_min * row0.train_capacity / 60) :=
  ⟨computeRow_st0,
    c1_row_formulas st0 "L1" 1000 12 [] [10] [10] 0 ts0 row0 computeRow_st0⟩

/-- C2 fails as stated: the code computes `estimated_present` from the
unrounded per-minute flow, not from the emitted 3-decimal-rounded value;
at headway 24, capacity 1, dwell 12 the two disagree (0 versus 1). -/
theorem c2_counterexample :
    computeRow st2 "L2" 1 12 [] [24] [24] 0 ts0 = Except.ok row2 ∧
      row2.estimated_present ≠ roundHalfEven (row2.passengers_per_min * 12) := by
  constructor
  · simp [computeRow, is_peak, cyclical_pick, st2, ts0, row2]
    norm_num [pyRound, roundHalfEven]
  · norm_num [row2, roundHalfEven]

/-- C2 amended: every produced row's `estimated_present` is the
nearest-integer rounding of the *unrounded* per-minute flow times the
configured dwell minutes,
`round((60 / headway_min) * train_capacity / 60 * dwell_min)`. -/
theorem c2_amended_estimated_present :
    ∀ (st : Station) (ln : String) (cap_train dwell_min : ℚ)
      (pw : List Window) (hp ho : List ℚ) (i : ℕ) (ts : Timestamp) (row : Row),
      computeRow st ln cap_train dwell_min pw hp ho i ts = Except.ok row →
      row.estimated_present =
        roundHalfEven (60 / row.headway_min * row.train_capacity / 60 * dwell_min) := by
  intro st ln cap_train dwell_min pw hp ho i ts row h
  unfold computeRow at h
  dsimp only at h
  cases hp1 : cyclical_pick (if is_peak ts pw then hp else ho) i with
  | none => rw [hp1] at h; simp at h
  | some hw =>
    rw [hp1] at h
    by_cases h0 : hw = 0
    · simp [h0] at h
    · simp only [h0, if_false, ite_false, Except.ok.injEq] at h
      subst h
      rfl

theorem c2_witness :
    computeRow st0 "L1" 1000 12 [] [10] [10] 0 ts0 = Except.ok row0 ∧
      row0.estimated_present =
        roundHalfEven (60 / row0.headway_min * row0.train_capacity / 60 * 12) :=
  ⟨computeRow_st0,
    c2_amended_estimated_present st0 "L1" 1000 12 [] [10] [10] 0 ts0 row0 computeRow_st0⟩

/-- C8: each percentage column is present on a produced row iff the
corresponding station capacity is present and nonzero, and when present
its value is, for `E = 60 / headway_min * train_capacity / 60 * dwell`
(the unrounded occupancy estimate) and
`P = 60 / headway_min * train_capacity / 60` (the unrounded flow):
`crowding_station_pct = round2(100 * E / occ_cap)`,
`crowding_platform_pct = round2(100 * (2/5 * E) / plat_cap)` and
`flow_vs_peak_pct = round2(100 * (P * 60) / peak_cap)`. -/
theorem c8_percentage_fields :
    ∀ (st : Station) (ln : String) (cap_train dwell_min : ℚ)
      (pw : List Window) (hp ho : List ℚ) (i : ℕ) (ts : Timestamp) (row : Row),
      computeRow st ln cap_train dwell_min pw hp ho i ts = Except.ok row →
      ((row.crowding_station_pct ≠ none ↔ ∃ c, st.occ_cap = some c ∧ c ≠ 0) ∧
        ∀ c, st.occ_cap = some c → c ≠ 0 →
          row.crowding_station_pct =
            some (pyRound 2
              (100 * (60 / row.headway_min * row.train_capacity / 60 * dwell_min) / c))) ∧
      ((row.crowding_platform_pct ≠ none ↔ ∃ c, st.plat_cap = some c ∧ c ≠ 0) ∧
        ∀ c, st.plat_cap = some c → c ≠ 0 →
          row.crowding_platform_pct =
            some (pyRound 2
              (100 * (2/5 * (60 / row.headway_min * row.train_capacity / 60 * dwell_min)) / c))) ∧
      ((row.flow_vs_peak_pct ≠ none ↔ ∃ c, st.peak_cap = some c ∧ c ≠ 0) ∧
        ∀ c, st.peak_cap = some c → c ≠ 0 →
          row.flow_vs_peak_pct =
            some (pyRound 2
              (100 * (60 / row.headway_min * row.train_capacity / 60 * 60) / c))) := by
  intro st ln cap_train dwell_min pw hp ho i ts row h
  unfold computeRow at h
  dsimp only at h
  cases hp1 : cyclical_pick (if is_peak ts pw then hp else ho) i with
  | none => rw [hp1] at h; simp at h
  | some hw =>
    rw [hp1] at h
    by_cases h0 : hw = 0
    · simp [h0] at h
    · simp only [h0, if_false, ite_false, Except.ok.injEq] at h
      subst h
      refine ⟨⟨?_, ?_⟩, ⟨?_, ?_⟩, ⟨?_, ?_⟩⟩
      · cases hoc : st.occ_cap with
        | none => simp [hoc]
        | some c => by_cases hc : c = 0 <;> simp [hoc, hc]
      · intro c hc hcne
        simp [hc, hcne]
      · cases hoc : st.plat_cap with
        | none => simp [hoc]
        | some c => by_cases hc : c = 0 <;> simp [hoc, hc]
      · intro c hc hcne
        simp [hc, hcne]
        ring_nf
      · cases hoc : st.peak_cap with
        | none => simp [hoc]
        | some c => by_cases hc : c = 0 <;> simp [hoc, hc]
      · intro c hc hcne
        simp [hc, hcne]

theorem c8_witness :
    computeRow st0 "L1" 1000 12 [] [10] [10] 0 ts0 = Except.ok row0 ∧
      row0.crowding_station_pct = some 120 ∧
      row0.crowding_platform_pct = some 96 ∧
      row0.flow_vs_peak_pct = some 100 := by
  have h := c8_percentage_fields st0 "L1" 1000 12 [] [10] [10] 0 ts0 row0 computeRow_st0
  refine ⟨computeRow_st0, ?_, ?_, ?_⟩
  · rw [h.1.2 1000 rfl (by norm_num)]
    norm_num [row0, pyRound, roundHalfEven]
  · rw [h.2.1.2 500 rfl (by norm_num)]
    norm_num [row0, pyRound, roundHalfEven]
  · rw [h.2.2.2 6000 rfl (by norm_num)]
    norm_num [row0, pyRound, roundHalfEven]

/-- C9: `60.0 / hw_min` is unguarded.  When every value of both headway
patterns is positive the division is safe and each timestamp yields a
well-defined row; but a seed whose off-peak pattern contains a 0 headway
makes the whole run fail with an uncaught `ZeroDivisionError` instead of
a skip or warning. -/
theorem c9_division_unguarded :
    (∀ (st : Station) (ln : String) (cap_train dwell_min : ℚ)
        (pw : List Window) (hp ho : List ℚ) (i : ℕ) (ts : Timestamp),
        hp ≠ [] → ho ≠ [] → (∀ h ∈ hp, 0 < h) → (∀ h ∈ ho, 0 < h) →
        ∃ row, computeRow st ln cap_train dwell_min pw hp ho i ts = Except.ok row) ∧
      runEstimator stations9 ldefs9 12 [ts0] =
        Except.error "ZeroDivisionError: float division by zero" := by
  constructor
  · intro st ln cap_train dwell_min pw hp ho i ts hhp hho hppos hopos
    set L := if is_peak ts pw then hp else ho with hL
    have hLne : L ≠ [] := by rw [hL]; split <;> assumption
    have hLpos : ∀ h ∈ L, 0 < h := by rw [hL]; split <;> assumption
    have hlen : 0 < L.length := List.length_pos.mpr hLne
    have hpick : cyclical_pick L i =
        some (L.get ⟨i % L.length, Nat.mod_lt i hlen⟩) := by
      simp [cyclical_pick, List.getElem?_eq_getElem (Nat.mod_lt i hlen)]
    have hmem : L.get ⟨i % L.length, Nat.mod_lt i hlen⟩ ∈ L :=
      L.get_mem _ _
    have hne0 : L.get ⟨i % L.length, Nat.mod_lt i hlen⟩ ≠ 0 :=
      ne_of_gt (hLpos _ hmem)
    apply Exists.intro
    unfold computeRow
    dsimp only
    rw [← hL, hpick]
    dsimp only
    rw [if_neg hne0]
  · simp [runEstimator, generateChunks, processStations, processStation,
      processLinesList, processLinePair, buildLines, rowsForTimes, computeRow,
      train_capacity, is_peak, cyclical_pick, stations9, ldefs9, ts0, List.enum]

theorem c9_witness :
    ∃ row, computeRow st0 "L1" 1000 12 [] [10] [12] 0 ts0 = Except.ok row :=
  c9_division_unguarded.1 st0 "L1" 1000 12 [] [10] [12] 0 ts0
    (by simp) (by simp) (by norm_num) (by norm_num)

/-- C7: the two skip conditions are non-fatal and local.  A referenced
line name absent from the line map yields no chunk and one warning, and
the loop proceeds to the remaining line names; a line with an empty peak
or off-peak headway pattern behaves the same; a station whose lines list
is empty contributes nothing and raises no error. -/
theorem c7_skip_conditions :
    ∀ (lmap : String → Option LineDef) (dwell_min : ℚ) (times : List Timestamp)
      (st : Station) (ln : String) (rest : List String),
      (lmap ln = none →
        processLinePair lmap dwell_min times st ln =
          Except.ok (none, [warnMissingLine ln]) ∧
        processLinesList lmap dwell_min times st (ln :: rest) =
          (processLinesList lmap dwell_min times st rest).map
            fun p => (p.1, warnMissingLine ln :: p.2)) ∧
      (∀ ld, lmap ln = some ld → (ld.peak_min = [] ∨ ld.offpeak_min = []) →
        processLinePair lmap dwell_min times st ln =
          Except.ok (none, [warnBadHeadway ln]) ∧
        processLinesList lmap dwell_min times st (ln :: rest) =
          (processLinesList lmap dwell_min times st rest).map
            fun p => (p.1, warnBadHeadway ln :: p.2)) ∧
      (st.lines = [] →
        processStation lmap dwell_min times st = Except.ok ([], [])) := by
  intro lmap dwell_min times st ln rest
  refine ⟨?_, ?_, ?_⟩
  · intro hnone
    have hpair : processLinePair lmap dwell_min times st ln =
        Except.ok (none, [warnMissingLine ln]) := by
      simp [processLinePair, hnone]
    refine ⟨hpair, ?_⟩
    rw [processLinesList, hpair]
    cases hrest : processLinesList lmap dwell_min times st rest with
    | error e => simp [Except.map]
    | ok p => cases p with
      | mk cs ws => simp [Except.map]
  · intro ld hld hbad
    have hpair : processLinePair lmap dwell_min times st ln =
        Except.ok (none, [warnBadHeadway ln]) := by
      rcases hbad with h | h <;> simp [processLinePair, hld, h]
    refine ⟨hpair, ?_⟩
    rw [processLinesList, hpair]
    cases hrest : processLinesList lmap dwell_min times st rest with
    | error e => simp [Except.map]
    | ok p => cases p with
      | mk cs ws => simp [Except.map]
  · intro hempty
    simp [processStation, hempty]

theorem c7_witness :
    processLinePair (buildLines []) 12 [] st0 "LX" =
      Except.ok (none, [warnMissingLine "LX"]) :=
  ((c7_skip_conditions (buildLines []) 12 [] st0 "LX" []).1
    (by simp [buildLines])).1

/-- C3 fails as stated: the "no data generated" abort tests
`if not all_chunks`, i.e. zero *chunks*, not zero rows.  With an empty
time grid (`hours_per_day = 0`) a valid station-line pair contributes an
empty chunk, so the run produces zero rows yet never raises the
"no data generated" failure; instead it writes the (empty) output file
and then dies with an uncaught `KeyError` at the summary groupby -- a
different fatal error than the claim specifies. -/
theorem c3_counterexample :
    generateChunks stations3 ldefs3 12 [] = Except.ok ([[]], []) ∧
      runEstimator stations3 ldefs3 12 [] = Except.error keyErrorGroupby ∧
      keyErrorGroupby ≠ noDataMsg := by
  refine ⟨?_, ?_, ?_⟩
  · simp [generateChunks, processStations, processStation, processLinesList,
      processLinePair, buildLines, rowsForTimes, train_capacity,
      stations3, ldefs3, List.enum]
  · simp [runEstimator, generateChunks, processStations, processStation,
      processLinesList, processLinePair, buildLines, rowsForTimes,
      train_capacity, stations3, ldefs3, List.enum]
  · simp [keyErrorGroupby, noDataMsg]

/-- C3 amended: when the generation loops finish without a propagated
exception, the run aborts fatally (some uncaught error, non-zero exit)
iff zero rows are produced across the entire run; but the
"no data generated" failure fires only when zero station-line chunks
survive the skip checks, while surviving chunks holding zero rows make
the run write the output and then crash with the summary-groupby
`KeyError` instead; whenever at least one row is produced the run
writes the output file, prints the summary, and exits zero. -/
theorem c3_amended_abort_condition :
    ∀ (stations : List Station) (lines_list : List LineDef) (dwell_min : ℚ)
      (times : List Timestamp) (chunks : List (List Row)) (warns : List String),
      generateChunks stations lines_list dwell_min times = Except.ok (chunks, warns) →
      ((∃ e, runEstimator stations lines_list dwell_min times = Except.error e) ↔
        chunks.flatten = []) ∧
      ((runEstimator stations lines_list dwell_min times = Except.error noDataMsg) ↔
        chunks = []) ∧
      ((runEstimator stations lines_list dwell_min times = Except.error keyErrorGroupby) ↔
        (chunks ≠ [] ∧ chunks.flatten = [])) ∧
      (chunks.flatten ≠ [] →
        runEstimator stations lines_list dwell_min times =
          Except.ok (chunks.flatten, warns)) := by
  intro stations lines_list dwell_min times chunks warns h
  have hrun : runEstimator stations lines_list dwell_min times =
      if chunks = [] then Except.error noDataMsg
      else if chunks.flatten = [] then Except.error keyErrorGroupby
      else Except.ok (chunks.flatten, warns) := by
    unfold runEstimator
    rw [h]
  by_cases hc : chunks = []
  · subst hc
    rw [hrun]
    simp [keyErrorGroupby, noDataMsg]
  · rw [hrun, if_neg hc]
    by_cases hf : chunks.flatten = []
    · rw [if_pos hf]
      simp [hc, hf, keyErrorGroupby, noDataMsg]
    · rw [if_neg hf]
      simp [hc, hf]

theorem c3_witness :
    generateChunks stations3 ldefs3 12 [] = Except.ok ([[]], []) ∧
      ((runEstimator stations3 ldefs3 12 [] = Except.error noDataMsg) ↔
        ([[]] : List (List Row)) = []) := by
  have hg : generateChunks stations3 ldefs3 12 [] = Except.ok ([[]], []) := by
    simp [generateChunks, processStations, processStation, processLinesList,
      processLinePair, buildLines, rowsForTimes, train_capacity,
      stations3, ldefs3, List.enum]
  exact ⟨hg, (c3_amended_abort_condition stations3 ldefs3 12 [] [[]] [] hg).2.1⟩
